import Mathlib

/-!
Verification of the `restclient` package (astropay/go-tools): a shallow
embedding, in Lean 4, of the pool registry, response cache, mock registry and
request executor found in `restclient.go`, together with theorems settling the
frozen claims about that code.

Modelling conventions:
* Go `string` is Lean `String`; Go `int` is `Int` (with `Nat` for time stamps
  and status codes, which the code never makes negative).
* Go maps are association lists with unique keys; a `map[string][]string`
  (header multimap) is `List (String × List String)` where the empty list
  stands for the `nil` map (indexing a `nil` map in Go behaves exactly like an
  empty one for every read this code performs).  A `map[string]string` that
  the code compares against `nil` keeps the distinction via `Option`.
* Wall-clock time is an abstract `Nat` number of seconds, passed explicitly
  (`now`); `time.Now().Add(n seconds)` is `now + n`.
* A Go runtime panic (out-of-range index) is the `RunResult.panicked` value;
  ordinary results are `RunResult.ok`.
* The hashicorp LRU cache is modelled as an association list: `Contains`/`Get`
  are lookup and `Add` is insert-or-replace.  No claim concerns capacity or
  eviction, so the recency bookkeeping is elided.
* The outcome of the one network attempt a call makes (`http.Client.Do` plus
  the body read) is an explicit oracle value of type `NetOutcome`, since the
  network is outside the program.
-/

namespace RestClient

/-- Result of running Go code that can panic at runtime. -/
inductive RunResult (α : Type) where
  | ok (val : α)
  | panicked
  deriving DecidableEq, Repr

/-- Go `map[string]string` contents: an association list with unique keys. -/
abbrev StrMap := List (String × String)

/-- Go `map[string][]string` (header multimap) contents; `[]` models `nil`. -/
abbrev Multimap := List (String × List String)

/-- Lookup in an association list, Go map-indexing style (`m[k]`, comma-ok). -/
def mapGet (m : List (String × α)) (k : String) : Option α :=
  (m.find? (fun kv => kv.1 == k)).map (fun kv => kv.2)

/-- Go map assignment `m[k] = v`: replace the value under an existing key, or
append a fresh binding. -/
def mapSet (m : List (String × α)) (k : String) (v : α) : List (String × α) :=
  if m.any (fun kv => kv.1 == k) then
    m.map (fun kv => if kv.1 == k then (k, v) else kv)
  else
    m ++ [(k, v)]

/-- Contiguous-sublist test on character lists (Boolean, decidable). -/
def charsContain (needle : List Char) : List Char → Bool
  | [] => needle.isEmpty
  | c :: rest => needle.isPrefixOf (c :: rest) || charsContain needle rest

/-- Go `strings.Contains s substr`. -/
def goContains (s substr : String) : Bool :=
  charsContain substr.data s.data

/-- Go `strings.ToLower` (ASCII case folding suffices for this code). -/
def goToLower (s : String) : String :=
  ⟨s.data.map Char.toLower⟩

/-- Split a character list at every occurrence of `sep`; always returns at
least one (possibly empty) segment, like Go `strings.Split`. -/
def splitOnChar (sep : Char) : List Char → List (List Char)
  | [] => [[]]
  | x :: xs =>
    let rest := splitOnChar sep xs
    if x == sep then [] :: rest
    else
      match rest with
      | [] => [[x]]
      | seg :: segs => (x :: seg) :: segs

/-- Go `strings.Split s sep` for a one-character separator (the only use in
this code is the separator "="). -/
def goSplit (s : String) (sep : Char) : List String :=
  (splitOnChar sep s.data).map (fun cs => ⟨cs⟩)

/-- Digit run to a number: `none` when empty or a non-digit appears
(`strconv.Atoi` error). -/
def digitsToNat (cs : List Char) : Option Nat :=
  match cs with
  | [] => none
  | _ =>
    cs.foldl
      (fun acc c =>
        match acc with
        | none => none
        | some n => if c.isDigit then some (n * 10 + (c.toNat - '0'.toNat)) else none)
      (some 0)

/-- Go `strconv.Atoi`: optional sign, then decimal digits; `none` on a syntax
error (the `int64` overflow error is not modelled — every value in scope is
small). -/
def goAtoi (s : String) : Option Int :=
  match s.data with
  | '+' :: rest => (digitsToNat rest).map (fun n => (n : Int))
  | '-' :: rest => (digitsToNat rest).map (fun n => -(n : Int))
  | cs => (digitsToNat cs).map (fun n => (n : Int))

/-- Response is a struct that holds the information about the response of the
call (`restclient.Response`).  `Headers = []` models a `nil` header map. -/
structure Response where
  Body : String
  Code : Nat
  Headers : Multimap
  CachedContent : Bool
  Staled : Bool
  deriving DecidableEq, Repr

/-- Cache node (`restclient.cacheElement`): body, headers and expiry time. -/
structure cacheElement where
  Content : String
  Headers : Multimap
  Expires : Nat
  deriving DecidableEq, Repr

/-- The per-pool cache contents (the hashicorp `lru.Cache` this code stores
`*cacheElement` values in), as an association list keyed by URL. -/
abbrev Cache := List (String × cacheElement)

/-- Header is used to hold HTTP header values (`restclient.Header`). -/
structure Header where
  Key : String
  Value : String
  deriving DecidableEq, Repr

/-- Internal structure for mocks (`restclient.mockResponse`).  `Headers` keeps
the Go `nil`/non-`nil` map distinction because `sameHeaders` branches on it. -/
structure mockResponse where
  URL : String
  Method : String
  Response : Response
  Headers : Option StrMap
  Body : String
  deriving DecidableEq, Repr

/-- Rest client (with cache) struct (`restclient.rClient`): the transport
settings of its `http.Client`, the base URL, the optional cache contents and
the stale flag.  `cache = none` is a pool without cache. -/
structure rClient where
  maxIdleConnsPerHost : Int
  timeout : Int
  proxy : String
  baseURL : String
  cache : Option Cache
  stale : Bool
  deriving DecidableEq, Repr

/-- PoolConfig is used to define a custom configuration for the pool
(`restclient.PoolConfig`). -/
structure PoolConfig where
  BaseURL : String
  MaxIdleConnsPerHost : Int
  Timeout : Int
  Proxy : String
  CacheElements : Int
  CacheState : Bool
  deriving DecidableEq, Repr

/-- Go `http.DefaultMaxIdleConnsPerHost`. -/
def httpDefaultMaxIdleConnsPerHost : Int := 2

/-- API constant `DefaultMaxIdleConnectionsPerHost`. -/
def DefaultMaxIdleConnectionsPerHost : Int := 100

/-- Inner loop of `getMaxAge` over the `Cache-Control` values.  The Go loop
always splits `cacheControlValues[0]` — the head of the original slice, here
carried as `first` — never the value that actually contained `max-age`, and
indexes the split at `[1]` without a bounds check, which panics when `first`
holds no `=`.  `strconv.Atoi`'s error return is the `Bool` component (the
value component is `0` on error, as `Atoi` returns). -/
def getMaxAgeLoop (first : String) : List String → RunResult (Int × Bool)
  | [] => .ok (0, false)
  | value :: rest =>
    if goContains (goToLower value) "max-age" then
      match (goSplit first '=').get? 1 with
      | none => .panicked
      | some piece =>
        match goAtoi piece with
        | some n => .ok (n, false)
        | none => .ok (0, true)
    else
      getMaxAgeLoop first rest

/-- Returns the max age from the header (`restclient.getMaxAge`). -/
def getMaxAge (cacheControlValues : List String) : RunResult (Int × Bool) :=
  match cacheControlValues with
  | [] => .ok (0, false)
  | first :: rest => getMaxAgeLoop first (first :: rest)

/-- Go map-index on a `map[string][]string`: the code only compares the result
against `nil`, so a missing key is `none`. -/
def mmGet (m : Multimap) (k : String) : Option (List String) :=
  mapGet m k

/-- Save the response to the cache (`restclient.setResponseInCache`).  Takes
and returns the pool's cache contents (the Go code mutates
`rclient.cache` in place); `now` is the current time in seconds.  The caller
discards `getMaxAge`'s error component, exactly as the Go code does. -/
def setResponseInCache (cache : Cache) (response : Response) (callURL : String)
    (now : Nat) : RunResult Cache :=
  match mmGet response.Headers "Cache-Control" with
  | none => .ok cache
  | some cacheControl =>
    match getMaxAge cacheControl with
    | .panicked => .panicked
    | .ok (cacheControlValue, _) =>
      if 0 < cacheControlValue then
        .ok (mapSet cache callURL
          ⟨response.Body, response.Headers, now + cacheControlValue.toNat⟩)
      else
        .ok cache

/-- Checks if we have to go to the cache for the element
(`restclient.getResponseFromCache`).  `Contains` followed by `Get` is a single
lookup; `time.Now().Before(Expires)` is `now < Expires`. -/
def getResponseFromCache (rclient : rClient) (callURL : String) (now : Nat) :
    Option Response :=
  match rclient.cache with
  | none => none
  | some c =>
    match mapGet c callURL with
    | none => none
    | some element =>
      if now < element.Expires then
        some ⟨element.Content, 200, element.Headers, true, false⟩
      else if rclient.stale then
        some ⟨element.Content, 200, element.Headers, true, true⟩
      else
        none

/-- Turn a list of `Header` values into a Go `map[string]string`
(`restclient.getHeadersMap`): later keys overwrite earlier ones.  The Go
function always returns a non-`nil` map, so users wrap the result in `some`. -/
def getHeadersMap (headers : List Header) : StrMap :=
  headers.foldl (fun m h => mapSet m h.Key h.Value) []

/-- Check if the headers map is equal (`restclient.sameHeaders`): both `nil`
maps are equal, a `nil` and a non-`nil` map are not, and two non-`nil` maps
are equal when they have the same length and every key/value of the first is
present in the second. -/
def sameHeaders (h1 h2 : Option StrMap) : Bool :=
  match h1, h2 with
  | none, none => true
  | none, some _ => false
  | some _, none => false
  | some m1, some m2 =>
    if m1.length != m2.length then false
    else
      m1.all (fun kv =>
        match mapGet m2 kv.1 with
        | none => false
        | some v => v == kv.2)

/-- The guard of the `searchMockCall` loop: a fixture matches a request when
URL, method, headers (via `sameHeaders`) and body all agree. -/
def mockMatches (mock : mockResponse) (method callURL : String)
    (headers : Option StrMap) (body : String) : Bool :=
  mock.URL == callURL && mock.Method == method &&
    sameHeaders headers mock.Headers && body == mock.Body

/-- Search for the url in the mocks array (`restclient.searchMockCall`):
scan front-to-back, return the first matching fixture's response. -/
def searchMockCall (mocks : List mockResponse) (method callURL : String)
    (headers : Option StrMap) (body : String) : Option Response :=
  match mocks with
  | [] => none
  | mock :: rest =>
    if mockMatches mock method callURL headers body then
      some mock.Response
    else
      searchMockCall rest method callURL headers body

/-- AddMock adds a URL, headers and Response to the mock URL map
(`restclient.AddMock`).  Both branches of the Go `nil` check append the new
fixture at the end of the list. -/
def AddMock (mocks : List mockResponse) (URL method body : String)
    (response : Response) (headers : List Header) : List mockResponse :=
  mocks ++ [⟨URL, method, response, some (getHeadersMap headers), body⟩]

/-- The pool registry (Go `pools` map): an association list from route pattern
to client, kept in registration order; Go iterates it in an arbitrary order,
which theorems quantify as any permutation of these entries. -/
abbrev Pools := List (String × rClient)

/-- Go `regexp.MustCompile(pattern).MatchString(url)`, modelled for patterns
that are literal strings (no metacharacters): such a pattern matches exactly
when it occurs as a substring of the URL.  Every concrete pattern in this
development is literal. -/
def matchString (pattern url : String) : Bool :=
  goContains url pattern

/-- The `for pattern, pool := range pools` loop of `getPool`, over the entries
in the order the map iteration yields them. -/
def findMatchingPool : Pools → String → Option rClient
  | [], _ => none
  | (pattern, pool) :: rest, callURL =>
    if matchString pattern callURL then some pool else findMatchingPool rest callURL

/-- The client built by `initDefaultPool`: default transport with
`DefaultMaxIdleConnectionsPerHost`, no timeout, no proxy, no base URL, no
cache. -/
def defaultRClient : rClient :=
  { maxIdleConnsPerHost := DefaultMaxIdleConnectionsPerHost
    timeout := 0
    proxy := ""
    baseURL := ""
    cache := none
    stale := false }

/-- initDefaultPool initializes the rest client with the default settings and
stores it in the pools map under the key "default"
(`restclient.initDefaultPool`); returns the new client and the updated map. -/
def initDefaultPool (pools : Pools) : rClient × Pools :=
  (defaultRClient, mapSet pools "default" defaultRClient)

/-- Return the http client based on the URL to call (`restclient.getPool`).
`iter` is the order in which the Go map iteration visits the entries of
`pools` (an arbitrary permutation of them); the fallthrough reads the key
"default" from the map and lazily creates the default pool on the first
miss.  Returns the chosen client together with the (possibly extended)
pools map. -/
def getPool (iter : Pools) (pools : Pools) (callURL : String) : rClient × Pools :=
  match findMatchingPool iter callURL with
  | some pool => (pool, pools)
  | none =>
    match mapGet pools "default" with
    | some pool => (pool, pools)
    | none => initDefaultPool pools

/-- AddCustomPool creates a new connection pool based on the sent parameters
(`restclient.AddCustomPool`) and registers it under `pattern`. -/
def AddCustomPool (pools : Pools) (pattern : String) (config : PoolConfig) : Pools :=
  let maxIdle :=
    if 0 < config.MaxIdleConnsPerHost then config.MaxIdleConnsPerHost
    else httpDefaultMaxIdleConnsPerHost
  let rclient : rClient :=
    { maxIdleConnsPerHost := maxIdle
      timeout := if config.Timeout != 0 then config.Timeout else 0
      proxy := config.Proxy
      baseURL := config.BaseURL
      cache := if 0 < config.CacheElements then some [] else none
      stale := if 0 < config.CacheElements then config.CacheState else false }
  mapSet pools pattern rclient

/-- The error value a call can return, by provenance: a genuine transport
error from `client.Do` (a `url.Error` not wrapping the redirect sentinel), a
body-read error from `ioutil.ReadAll`, or a request-construction error from
`http.NewRequest`. -/
inductive GoError where
  | transport
  | readBody
  | newRequest
  deriving DecidableEq, Repr

/-- Outcome of `ioutil.ReadAll` on the response body. -/
inductive BodyRead where
  | ok (body : String)
  | readError
  deriving DecidableEq, Repr

/-- Oracle for the single network attempt of a call: `http.NewRequest` fails;
or `client.Do` fails with a genuine transport error (no response); or `Do`
reports the redirect sentinel (response present, body never read); or `Do`
succeeds with a status, headers, and a body read that yields a string or
fails. -/
inductive NetOutcome where
  | newRequestError
  | transportError
  | redirectSentinel (status : Nat) (headers : Multimap)
  | ok (status : Nat) (headers : Multimap) (bodyRead : BodyRead)
  deriving DecidableEq, Repr

/-- What a call returns and leaves behind: the `*Response` (`none` only on a
`NewRequest` failure), the error value, the pool's cache contents after the
call, and whether `client.Do` executed (a network call happened). -/
structure PRResult where
  resp : Option Response
  err : Option GoError
  cache : Option Cache
  networkUsed : Bool
  deriving DecidableEq, Repr

/-- The base-URL prefixing at the top of `performRequest`: if the pool has a
base URL and the call URL does not already contain it, prefix it. -/
def resolveURL (rclient : rClient) (callURL : String) : String :=
  if rclient.baseURL != "" && !(goContains callURL rclient.baseURL) then
    rclient.baseURL ++ callURL
  else
    callURL

/-- The mock short-circuit of `performRequest`: only consulted when `useMock`
is set. -/
def mockLookup (useMock : Bool) (mocks : List mockResponse)
    (method callURL : String) (headers : Option StrMap) (body : String) :
    Option Response :=
  if useMock then searchMockCall mocks method callURL headers body else none

/-- The cache probe of `performRequest`: only a GET through a pool that has a
cache consults `getResponseFromCache`. -/
def cacheProbe (rclient : rClient) (method callURL : String) (now : Nat) :
    Option Response :=
  if method == "GET" && rclient.cache.isSome then
    getResponseFromCache rclient callURL now
  else
    none

/-- The early-return guard after the cache probe: a cached response that is
not stale is returned immediately. -/
def freshHit : Option Response → Bool
  | some cached => !cached.Staled
  | none => false

/-- Lines 289-302 of `performRequest`: after the network attempt produced
`rcResponse` (and error `err`), a cached GET with status 200 is admitted to
the cache (which can panic inside `getMaxAge`); on a non-200 status with the
stale option set and a cached candidate present, the stale candidate is
returned with a `nil` error; otherwise `rcResponse` and `err` are returned. -/
def cacheStep (rclient : rClient) (withCache : Bool)
    (cachedResponse : Option Response) (rcResponse : Response)
    (err : Option GoError) (now : Nat) (callURL : String) : RunResult PRResult :=
  if withCache then
    if rcResponse.Code == 200 then
      match rclient.cache with
      | some c =>
        match setResponseInCache c rcResponse callURL now with
        | .ok c' => .ok ⟨some rcResponse, err, some c', true⟩
        | .panicked => .panicked
      | none => .ok ⟨some rcResponse, err, none, true⟩
    else
      if rclient.stale && cachedResponse.isSome then
        .ok ⟨cachedResponse, none, rclient.cache, true⟩
      else
        .ok ⟨some rcResponse, err, rclient.cache, true⟩
  else
    .ok ⟨some rcResponse, err, rclient.cache, true⟩

/-- Lines 231-302 of `performRequest`: build the request, run it, classify
the outcome (transport error; redirect sentinel treated as success with empty
body; body-read failure keeping the real status; plain success), then apply
`cacheStep`. -/
def networkPhase (rclient : rClient) (withCache : Bool)
    (cachedResponse : Option Response) (net : NetOutcome) (now : Nat)
    (callURL : String) : RunResult PRResult :=
  match net with
  | .newRequestError => .ok ⟨none, some .newRequest, rclient.cache, false⟩
  | .transportError =>
    cacheStep rclient withCache cachedResponse ⟨"", 0, [], false, false⟩
      (some .transport) now callURL
  | .redirectSentinel status headers =>
    cacheStep rclient withCache cachedResponse ⟨"", status, headers, false, false⟩
      none now callURL
  | .ok status headers bodyRead =>
    match bodyRead with
    | .readError =>
      cacheStep rclient withCache cachedResponse ⟨"", status, [], false, false⟩
        (some .readBody) now callURL
    | .ok bodyStr =>
      cacheStep rclient withCache cachedResponse ⟨bodyStr, status, headers, false, false⟩
        none now callURL

/-- Execute the request (`restclient.performRequest`), for an already
resolved pool `rclient` (the body of `performRequest` after the `getPool`
line): base-URL prefixing, mock short-circuit, cache probe with fresh-hit
early return, then the network phase.  `useMock`/`mocks` are the mock
registry state, `net` the network oracle, `now` the current time. -/
def performRequestWith (rclient : rClient) (useMock : Bool)
    (mocks : List mockResponse) (net : NetOutcome) (now : Nat)
    (method callURL body : String) (headers : Option StrMap) :
    RunResult PRResult :=
  let callURL := resolveURL rclient callURL
  match mockLookup useMock mocks method callURL headers body with
  | some r => .ok ⟨some r, none, rclient.cache, false⟩
  | none =>
    let withCache := method == "GET" && rclient.cache.isSome
    let cachedResponse := cacheProbe rclient method callURL now
    if freshHit cachedResponse then
      .ok ⟨cachedResponse, none, rclient.cache, false⟩
    else
      networkPhase rclient withCache cachedResponse net now callURL

/-- Status code carried by a network outcome (0 when no response exists),
matching the `Code` field the executor builds from it. -/
def netStatus : NetOutcome → Nat
  | .newRequestError => 0
  | .transportError => 0
  | .redirectSentinel status _ => status
  | .ok status _ _ => status

/-- C2: the claim says a 200 GET response whose `Cache-Control` carries a
strictly positive `max-age` is always admitted with expiry `now + max-age`.
The code instead parses the segment after the first `=` of the FIRST
`Cache-Control` value: for the single value "max-age=60, public" the
directive value 60 is positive, yet `strconv.Atoi` receives "60, public",
fails, and the response is not cached at all. -/
theorem C2_positive_max_age_not_admitted :
    getMaxAge ["max-age=60, public"] = .ok (0, true) ∧
    performRequestWith ⟨2, 0, "", "", some [], false⟩ false []
        (.ok 200 [("Cache-Control", ["max-age=60, public"])] (.ok "B")) 1000
        "GET" "u" "" (some []) =
      .ok ⟨some ⟨"B", 200, [("Cache-Control", ["max-age=60, public"])], false, false⟩,
        none, some [], true⟩ := by
  exact ⟨rfl, rfl⟩

/-- C3: the claim says cache admission after a 200 GET response never
panics, in particular for Cache-Control value lists whose `max-age`
directive is not in the first value.  For the values
["no-cache", "max-age=5"] the loop finds `max-age` in the second value but
splits the first value "no-cache" at "=", indexes the split at [1], and the
index is out of range: a runtime panic. -/
theorem C3_cache_admission_panics :
    getMaxAge ["no-cache", "max-age=5"] = .panicked ∧
    performRequestWith ⟨2, 0, "", "", some [], false⟩ false []
        (.ok 200 [("Cache-Control", ["no-cache", "max-age=5"])] (.ok "B")) 1000
        "GET" "u" "" (some []) = .panicked := by
  exact ⟨rfl, rfl⟩

/-- C5 counterexample: a genuine transport error on a GET through a pool with
a stale-enabled cache holding an expired entry returns the stale cached
response with a nil error — not the promised empty status-0 response with a
non-nil error. -/
theorem C5_counterexample :
    performRequestWith ⟨2, 0, "", "", some [("u", ⟨"old", [("H", ["v"])], 5⟩)], true⟩
        false [] .transportError 10 "GET" "u" "" (some []) =
      .ok ⟨some ⟨"old", 200, [("H", ["v"])], true, true⟩, none,
        some [("u", ⟨"old", [("H", ["v"])], 5⟩)], true⟩ := by
  rfl

/-- C6 counterexample: a redirect sentinel with status 301 on a GET through a
pool with a stale-enabled cache holding an expired entry returns the stale
cached response (status 200, cached headers, non-empty body) instead of the
redirect's status 301, headers and empty body. -/
theorem C6_counterexample :
    performRequestWith ⟨2, 0, "", "", some [("u", ⟨"old", [("H", ["v"])], 5⟩)], true⟩
        false [] (.redirectSentinel 301 [("Location", ["x"])]) 10 "GET" "u" "" (some []) =
      .ok ⟨some ⟨"old", 200, [("H", ["v"])], true, true⟩, none,
        some [("u", ⟨"old", [("H", ["v"])], 5⟩)], true⟩ ∧
    (200 : Nat) ≠ 301 := by
  exact ⟨rfl, by decide⟩

/-- C9 counterexample: with the pool's stale flag disabled, an expired entry
(present in the cache, `Expires = 5 ≤ now = 10`) is NOT returned as a stale
candidate — `getResponseFromCache` drops it and returns `none`, against the
claim's "regardless of whether the Pool's stale-serving flag is enabled". -/
theorem C9_counterexample :
    mapGet [("u", cacheElement.mk "old" [("H", ["v"])] 5)] "u" =
      some ⟨"old", [("H", ["v"])], 5⟩ ∧
    ¬ (10 : Nat) < 5 ∧
    getResponseFromCache ⟨2, 0, "", "", some [("u", ⟨"old", [("H", ["v"])], 5⟩)], false⟩
      "u" 10 = none := by
  exact ⟨rfl, by decide, rfl⟩

/-- C4: through a pool with a cache and stale-serving enabled, when the cache
holds an expired entry for the resolved URL and the network attempt (which
did happen: `net` is not a request-construction failure) results in a status
other than 200, the call returns the expired entry's body and headers with
the served-from-cache and served-stale flags set, a nil error, and an
unchanged cache. -/
theorem C4_stale_fallback (rclient : rClient) (c : Cache) (element : cacheElement)
    (useMock : Bool) (mocks : List mockResponse) (net : NetOutcome) (now : Nat)
    (callURL body : String) (headers : Option StrMap)
    (hmock : mockLookup useMock mocks "GET" (resolveURL rclient callURL) headers body = none)
    (hc : rclient.cache = some c)
    (hstale : rclient.stale = true)
    (hget : mapGet c (resolveURL rclient callURL) = some element)
    (hexp : ¬ now < element.Expires)
    (hreq : net ≠ .newRequestError)
    (hcode : netStatus net ≠ 200) :
    performRequestWith rclient useMock mocks net now "GET" callURL body headers =
      .ok ⟨some ⟨element.Content, 200, element.Headers, true, true⟩, none, some c, true⟩ := by
  have hprobe : cacheProbe rclient "GET" (resolveURL rclient callURL) now =
      some ⟨element.Content, 200, element.Headers, true, true⟩ := by
    simp [cacheProbe, getResponseFromCache, hc, hget, hexp, hstale]
  cases net with
  | newRequestError => exact absurd rfl hreq
  | transportError =>
    simp [performRequestWith, hmock, hprobe, freshHit, networkPhase, cacheStep, hc, hstale]
  | redirectSentinel status hdrs =>
    have hs : (status == 200) = false := by
      simpa [netStatus] using hcode
    simp [performRequestWith, hmock, hprobe, freshHit, networkPhase, cacheStep, hc,
      hstale, hs]
  | ok status hdrs bodyRead =>
    have hs : (status == 200) = false := by
      simpa [netStatus] using hcode
    cases bodyRead <;>
      simp [performRequestWith, hmock, hprobe, freshHit, networkPhase, cacheStep, hc,
        hstale, hs]

/-- C4 witness: concrete stale fallback — expired entry (expiry 5, now 10),
stale enabled, network yields 500. -/
theorem C4_witness :
    performRequestWith ⟨2, 0, "", "", some [("u", ⟨"old", [("H", ["v"])], 5⟩)], true⟩
        false [] (.ok 500 [] (.ok "fail")) 10 "GET" "u" "" (some []) =
      .ok ⟨some ⟨"old", 200, [("H", ["v"])], true, true⟩, none,
        some [("u", ⟨"old", [("H", ["v"])], 5⟩)], true⟩ :=
  C4_stale_fallback ⟨2, 0, "", "", some [("u", ⟨"old", [("H", ["v"])], 5⟩)], true⟩
    [("u", ⟨"old", [("H", ["v"])], 5⟩)] ⟨"old", [("H", ["v"])], 5⟩
    false [] (.ok 500 [] (.ok "fail")) 10 "u" "" (some [])
    rfl rfl rfl rfl (by decide) (by decide) (by decide)

/-- C5 (amended): a genuine transport error returns the empty status-0
headerless response together with a non-nil error, provided the stale
fallback does not apply (no mock interception, no fresh cache hit, and not
both stale-serving and a cached candidate present). -/
theorem C5_transport_error (rclient : rClient) (useMock : Bool)
    (mocks : List mockResponse) (now : Nat) (method callURL body : String)
    (headers : Option StrMap)
    (hmock : mockLookup useMock mocks method (resolveURL rclient callURL) headers body = none)
    (hfresh : freshHit (cacheProbe rclient method (resolveURL rclient callURL) now) = false)
    (hnostale : (rclient.stale &&
      (cacheProbe rclient method (resolveURL rclient callURL) now).isSome) = false) :
    performRequestWith rclient useMock mocks .transportError now method callURL body headers =
      .ok ⟨some ⟨"", 0, [], false, false⟩, some .transport, rclient.cache, true⟩ := by
  cases hw : (method == "GET" && rclient.cache.isSome) <;>
    simp [performRequestWith, hmock, hfresh, networkPhase, cacheStep, hnostale, hw]

/-- C5 witness: transport error through a pool with no cache. -/
theorem C5_witness :
    performRequestWith ⟨2, 0, "", "", none, false⟩ false [] .transportError 10
        "GET" "u" "" (some []) =
      .ok ⟨some ⟨"", 0, [], false, false⟩, some .transport, none, true⟩ :=
  C5_transport_error ⟨2, 0, "", "", none, false⟩ false [] 10 "GET" "u" "" (some [])
    rfl rfl rfl

/-- C6 (amended): a redirect sentinel is not an error — the call returns the
redirect response's status and headers with an empty body and a nil error —
provided the call reaches the network with no cached candidate (no mock
interception, cache probe empty) and the redirect status is not 200 (real
redirect statuses are 3xx); with a stale candidate on a stale-serving pool
the stale entry is substituted instead. -/
theorem C6_redirect_sentinel (rclient : rClient) (useMock : Bool)
    (mocks : List mockResponse) (now : Nat) (method callURL body : String)
    (headers : Option StrMap) (status : Nat) (hdrs : Multimap)
    (hmock : mockLookup useMock mocks method (resolveURL rclient callURL) headers body = none)
    (hprobe : cacheProbe rclient method (resolveURL rclient callURL) now = none)
    (hstatus : status ≠ 200) :
    performRequestWith rclient useMock mocks (.redirectSentinel status hdrs) now
        method callURL body headers =
      .ok ⟨some ⟨"", status, hdrs, false, false⟩, none, rclient.cache, true⟩ := by
  have hs : (status == 200) = false := by simpa using hstatus
  cases hw : (method == "GET" && rclient.cache.isSome) <;>
    simp [performRequestWith, hmock, hprobe, freshHit, networkPhase, cacheStep, hs, hw]

/-- C6 witness: a 301 redirect sentinel through a pool with no cache. -/
theorem C6_witness :
    performRequestWith ⟨2, 0, "", "", none, false⟩ false []
        (.redirectSentinel 301 [("Location", ["x"])]) 10 "GET" "u" "" (some []) =
      .ok ⟨some ⟨"", 301, [("Location", ["x"])], false, false⟩, none, none, true⟩ :=
  C6_redirect_sentinel ⟨2, 0, "", "", none, false⟩ false [] 10 "GET" "u" "" (some [])
    301 [("Location", ["x"])] rfl rfl (by decide)

/-- C7: a GET through a pool whose cache holds an entry for the resolved URL
that was admitted with expiry `t + n` (admission time plus the parsed
max-age), while `now < t + n`, returns that entry's body and headers with
status 200, the served-from-cache flag set, the stale flag clear, a nil
error, no network call, and an unchanged cache. -/
theorem C7_fresh_cache_hit (rclient : rClient) (c : Cache) (element : cacheElement)
    (useMock : Bool) (mocks : List mockResponse) (net : NetOutcome)
    (now t n : Nat) (callURL body : String) (headers : Option StrMap)
    (hmock : mockLookup useMock mocks "GET" (resolveURL rclient callURL) headers body = none)
    (hc : rclient.cache = some c)
    (hget : mapGet c (resolveURL rclient callURL) = some element)
    (hadm : element.Expires = t + n)
    (hnow : now < t + n) :
    performRequestWith rclient useMock mocks net now "GET" callURL body headers =
      .ok ⟨some ⟨element.Content, 200, element.Headers, true, false⟩, none, some c, false⟩ := by
  have hfresh : now < element.Expires := by rw [hadm]; exact hnow
  simp [performRequestWith, hmock, cacheProbe, getResponseFromCache, hc, hget, hfresh,
    freshHit]

/-- C7 witness: entry admitted at time 40 with max-age 10 (expiry 50), read
at time 10 — returned from the cache with no network call. -/
theorem C7_witness :
    performRequestWith ⟨2, 0, "", "", some [("u", ⟨"old", [("H", ["v"])], 50⟩)], false⟩
        false [] (.ok 200 [] (.ok "net")) 10 "GET" "u" "" (some []) =
      .ok ⟨some ⟨"old", 200, [("H", ["v"])], true, false⟩, none,
        some [("u", ⟨"old", [("H", ["v"])], 50⟩)], false⟩ :=
  C7_fresh_cache_hit ⟨2, 0, "", "", some [("u", ⟨"old", [("H", ["v"])], 50⟩)], false⟩
    [("u", ⟨"old", [("H", ["v"])], 50⟩)] ⟨"old", [("H", ["v"])], 50⟩
    false [] (.ok 200 [] (.ok "net")) 10 40 10 "u" "" (some [])
    rfl rfl rfl rfl (by decide)

/-- C9 (amended): an expired cache entry is returned to the executor as a
stale candidate (flagged served-from-cache and stale) exactly when the
pool's stale-serving flag is enabled — with the flag disabled the lookup
drops it and returns none.  When the candidate is returned, the executor
does not return it immediately: the call proceeds into the network phase
carrying the candidate. -/
theorem C9_stale_candidate (rclient : rClient) (c : Cache) (element : cacheElement)
    (callURL : String) (now : Nat)
    (hc : rclient.cache = some c)
    (hget : mapGet c (resolveURL rclient callURL) = some element)
    (hexp : ¬ now < element.Expires) :
    getResponseFromCache rclient (resolveURL rclient callURL) now =
      (if rclient.stale then some ⟨element.Content, 200, element.Headers, true, true⟩
        else none) ∧
    (∀ (useMock : Bool) (mocks : List mockResponse) (net : NetOutcome)
        (body : String) (headers : Option StrMap),
      mockLookup useMock mocks "GET" (resolveURL rclient callURL) headers body = none →
      rclient.stale = true →
      performRequestWith rclient useMock mocks net now "GET" callURL body headers =
        networkPhase rclient true
          (some ⟨element.Content, 200, element.Headers, true, true⟩) net now
          (resolveURL rclient callURL)) := by
  constructor
  · simp [getResponseFromCache, hc, hget, hexp]
  · intro useMock mocks net body headers hmock hstale
    simp [performRequestWith, hmock, cacheProbe, getResponseFromCache, hc, hget, hexp,
      hstale, freshHit]

/-- C9 witness: expired entry (expiry 5, now 10) with the stale flag enabled
is handed to the network phase as a stale candidate. -/
theorem C9_witness :
    getResponseFromCache ⟨2, 0, "", "", some [("u", ⟨"old", [("H", ["v"])], 5⟩)], true⟩
        (resolveURL ⟨2, 0, "", "", some [("u", ⟨"old", [("H", ["v"])], 5⟩)], true⟩ "u")
        10 =
      (if (rClient.mk 2 0 "" "" (some [("u", ⟨"old", [("H", ["v"])], 5⟩)]) true).stale
        then some ⟨"old", 200, [("H", ["v"])], true, true⟩ else none) ∧
    (∀ (useMock : Bool) (mocks : List mockResponse) (net : NetOutcome)
        (body : String) (headers : Option StrMap),
      mockLookup useMock mocks "GET"
          (resolveURL ⟨2, 0, "", "", some [("u", ⟨"old", [("H", ["v"])], 5⟩)], true⟩ "u")
          headers body = none →
      (rClient.mk 2 0 "" "" (some [("u", ⟨"old", [("H", ["v"])], 5⟩)]) true).stale = true →
      performRequestWith ⟨2, 0, "", "", some [("u", ⟨"old", [("H", ["v"])], 5⟩)], true⟩
          useMock mocks net 10 "GET" "u" body headers =
        networkPhase ⟨2, 0, "", "", some [("u", ⟨"old", [("H", ["v"])], 5⟩)], true⟩ true
          (some ⟨"old", 200, [("H", ["v"])], true, true⟩) net 10
          (resolveURL ⟨2, 0, "", "", some [("u", ⟨"old", [("H", ["v"])], 5⟩)], true⟩ "u")) :=
  C9_stale_candidate ⟨2, 0, "", "", some [("u", ⟨"old", [("H", ["v"])], 5⟩)], true⟩
    [("u", ⟨"old", [("H", ["v"])], 5⟩)] ⟨"old", [("H", ["v"])], 5⟩ "u" 10
    rfl rfl (by decide)

/-- A successful scan of the pools map yields the pool of a pattern that
matches the URL. -/
theorem findMatchingPool_some :
    ∀ {ps : Pools} {url : String} {pool : rClient},
      findMatchingPool ps url = some pool →
      ∃ pattern, (pattern, pool) ∈ ps ∧ matchString pattern url = true
  | [], _, _, h => by simp [findMatchingPool] at h
  | (pat, p) :: tl, url, pool, h => by
    by_cases hm : matchString pat url = true
    · simp only [findMatchingPool, hm, if_true] at h
      exact ⟨pat, by simp [← Option.some.injEq pool p |>.mp h.symm], hm⟩
    · rw [Bool.not_eq_true] at hm
      simp only [findMatchingPool, hm, Bool.false_eq_true, if_false] at h
      obtain ⟨pattern, hmem, hmatch⟩ := findMatchingPool_some h
      exact ⟨pattern, List.mem_cons_of_mem _ hmem, hmatch⟩

/-- An empty scan of the pools map means no registered pattern matches. -/
theorem findMatchingPool_none :
    ∀ (ps : Pools) (url : String),
      findMatchingPool ps url = none →
      ∀ pp ∈ ps, matchString pp.1 url = false
  | [], _, _ => by simp
  | (pat, p) :: tl, url, h => by
    by_cases hm : matchString pat url = true
    · simp [findMatchingPool, hm] at h
    · rw [Bool.not_eq_true] at hm
      simp only [findMatchingPool, hm, Bool.false_eq_true, if_false] at h
      intro pp hpp
      rcases List.mem_cons.mp hpp with h1 | h2
      · rw [h1]; exact hm
      · exact findMatchingPool_none tl url h pp h2

/-- Setting a key whose Boolean equality with the head key is false commutes
with the cons. -/
theorem mapSet_cons_ne {α : Type} (k' : String) (v' : α) (rest : List (String × α))
    (k : String) (v : α) (hk : (k' == k) = false) :
    mapSet ((k', v') :: rest) k v = (k', v') :: mapSet rest k v := by
  have hne : ¬ k' = k := by simpa using hk
  by_cases ha : rest.any (fun kv => kv.1 == k) = true
  · simp [mapSet, List.any_cons, hk, ha, hne]
  · rw [Bool.not_eq_true] at ha
    simp [mapSet, List.any_cons, hk, ha, hne]

/-- Go map-write then map-read: after `m[k] = v`, reading `m[k]` yields `v`. -/
theorem mapGet_mapSet_self {α : Type} :
    ∀ (m : List (String × α)) (k : String) (v : α),
      mapGet (mapSet m k v) k = some v
  | [], k, v => by simp [mapGet, mapSet]
  | (k', v') :: rest, k, v => by
    by_cases hk : (k' == k) = true
    · have heq : k' = k := by simpa using hk
      have hset : mapSet ((k', v') :: rest) k v =
          (k, v) :: rest.map (fun kv => if kv.1 == k then (k, v) else kv) := by
        simp [mapSet, List.any_cons, hk, heq]
      rw [hset]
      simp [mapGet, List.find?]
    · rw [Bool.not_eq_true] at hk
      rw [mapSet_cons_ne _ _ _ _ _ hk]
      have hskip : mapGet ((k', v') :: mapSet rest k v) k =
          mapGet (mapSet rest k v) k := by
        simp only [mapGet]
        rw [List.find?_cons_of_neg _ (by simp [hk])]
      rw [hskip]
      exact mapGet_mapSet_self rest k v

/-- C1 counterexample: two registered literal patterns "a" and "b" both match
the URL "ab"; in registration order ["a" before "b"] the first match is the
"a" pool, yet a legal map iteration order (a permutation of the same
entries) visiting "b" first makes `getPool` return the "b" pool, which is a
different pool.  Resolution is therefore not first-match-in-registration-
order. -/
theorem C1_counterexample :
    List.Perm
      [("b", rClient.mk 2 0 "" "B" none false), ("a", rClient.mk 2 0 "" "A" none false)]
      [("a", rClient.mk 2 0 "" "A" none false), ("b", rClient.mk 2 0 "" "B" none false)] ∧
    matchString "a" "ab" = true ∧
    matchString "b" "ab" = true ∧
    findMatchingPool
      [("a", rClient.mk 2 0 "" "A" none false), ("b", rClient.mk 2 0 "" "B" none false)]
      "ab" = some (rClient.mk 2 0 "" "A" none false) ∧
    (getPool
      [("b", rClient.mk 2 0 "" "B" none false), ("a", rClient.mk 2 0 "" "A" none false)]
      [("a", rClient.mk 2 0 "" "A" none false), ("b", rClient.mk 2 0 "" "B" none false)]
      "ab").1 = rClient.mk 2 0 "" "B" none false ∧
    rClient.mk 2 0 "" "B" none false ≠ rClient.mk 2 0 "" "A" none false := by
  refine ⟨by decide, rfl, rfl, rfl, rfl, by decide⟩

/-- C1 (amended): for every call URL, under any map iteration order (a
permutation of the registered entries), `getPool` returns the pool of SOME
registered pattern that matches the URL — which one depends on the
unspecified iteration order, not on registration order; if no registered
pattern matches, the pool registered under "default" is returned unchanged
when it exists, and otherwise the default pool (no base URL, no cache) is
created, stored under the key "default", and returned, so later misses find
and reuse it. -/
theorem C1_resolution (iter pools : Pools) (callURL : String)
    (hperm : List.Perm iter pools) :
    (∃ pattern pool, (pattern, pool) ∈ pools ∧ matchString pattern callURL = true ∧
      getPool iter pools callURL = (pool, pools)) ∨
    ((∀ pp ∈ pools, matchString pp.1 callURL = false) ∧
      defaultRClient.baseURL = "" ∧ defaultRClient.cache = none ∧
      ((∃ d, mapGet pools "default" = some d ∧
          getPool iter pools callURL = (d, pools)) ∨
        (mapGet pools "default" = none ∧
          getPool iter pools callURL =
            (defaultRClient, mapSet pools "default" defaultRClient) ∧
          mapGet (mapSet pools "default" defaultRClient) "default" =
            some defaultRClient))) := by
  cases hf : findMatchingPool iter callURL with
  | some pool =>
    left
    obtain ⟨pattern, hmem, hmatch⟩ := findMatchingPool_some hf
    exact ⟨pattern, pool, hperm.mem_iff.mp hmem, hmatch, by simp [getPool, hf]⟩
  | none =>
    right
    refine ⟨?_, rfl, rfl, ?_⟩
    · intro pp hpp
      exact findMatchingPool_none iter callURL hf pp (hperm.mem_iff.mpr hpp)
    · cases hd : mapGet pools "default" with
      | some d => exact Or.inl ⟨d, rfl, by simp [getPool, hf, hd]⟩
      | none =>
        exact Or.inr ⟨rfl, by simp [getPool, hf, hd, initDefaultPool],
          mapGet_mapSet_self pools "default" defaultRClient⟩

/-- C1 witness: a single registered pattern "a" matching the URL "ab", with
the iteration order equal to the registration order. -/
theorem C1_witness :
    (∃ pattern pool,
      (pattern, pool) ∈ ([("a", rClient.mk 2 0 "" "A" none false)] : Pools) ∧
      matchString pattern "ab" = true ∧
      getPool [("a", rClient.mk 2 0 "" "A" none false)]
        [("a", rClient.mk 2 0 "" "A" none false)] "ab" =
        (pool, [("a", rClient.mk 2 0 "" "A" none false)])) ∨
    ((∀ pp ∈ ([("a", rClient.mk 2 0 "" "A" none false)] : Pools),
        matchString pp.1 "ab" = false) ∧
      defaultRClient.baseURL = "" ∧ defaultRClient.cache = none ∧
      ((∃ d, mapGet [("a", rClient.mk 2 0 "" "A" none false)] "default" = some d ∧
          getPool [("a", rClient.mk 2 0 "" "A" none false)]
            [("a", rClient.mk 2 0 "" "A" none false)] "ab" =
            (d, [("a", rClient.mk 2 0 "" "A" none false)])) ∨
        (mapGet [("a", rClient.mk 2 0 "" "A" none false)] "default" = none ∧
          getPool [("a", rClient.mk 2 0 "" "A" none false)]
            [("a", rClient.mk 2 0 "" "A" none false)] "ab" =
            (defaultRClient,
              mapSet [("a", rClient.mk 2 0 "" "A" none false)] "default" defaultRClient) ∧
          mapGet (mapSet [("a", rClient.mk 2 0 "" "A" none false)] "default" defaultRClient)
            "default" = some defaultRClient))) :=
  C1_resolution [("a", rClient.mk 2 0 "" "A" none false)]
    [("a", rClient.mk 2 0 "" "A" none false)] "ab" (List.Perm.refl _)

/-- C10: once the lazily created default pool has been stored under the
literal key "default" in the same pattern-to-pool map, that key takes part
in pattern matching, so a URL containing the substring "default" can resolve
to the default pool (no base URL, no cache) under a legal iteration order,
even when another registered pattern also matches the URL. -/
theorem C10_default_key_resolution (pools : Pools) (callURL : String)
    (hmem : ("default", defaultRClient) ∈ pools)
    (hurl : matchString "default" callURL = true)
    (_hother : ∃ pp ∈ pools, pp.1 ≠ "default" ∧ matchString pp.1 callURL = true) :
    defaultRClient.baseURL = "" ∧ defaultRClient.cache = none ∧
    ∃ iter : Pools, List.Perm iter pools ∧
      getPool iter pools callURL = (defaultRClient, pools) := by
  obtain ⟨l1, l2, hsplit⟩ := List.append_of_mem hmem
  refine ⟨rfl, rfl, ("default", defaultRClient) :: (l1 ++ l2), ?_, ?_⟩
  · rw [hsplit]
    exact List.perm_middle.symm
  · simp [getPool, findMatchingPool, hurl]

/-- C10 witness: the URL "adefault" matches both the registered pattern "a"
and the key "default"; an iteration order visiting "default" first resolves
it to the default pool. -/
theorem C10_witness :
    defaultRClient.baseURL = "" ∧ defaultRClient.cache = none ∧
    ∃ iter : Pools,
      List.Perm iter
        [("a", rClient.mk 2 0 "" "A" none false), ("default", defaultRClient)] ∧
      getPool iter [("a", rClient.mk 2 0 "" "A" none false), ("default", defaultRClient)]
        "adefault" =
        (defaultRClient,
          [("a", rClient.mk 2 0 "" "A" none false), ("default", defaultRClient)]) :=
  C10_default_key_resolution
    [("a", rClient.mk 2 0 "" "A" none false), ("default", defaultRClient)] "adefault"
    (by decide) (by decide)
    ⟨("a", rClient.mk 2 0 "" "A" none false), by decide, by decide, by decide⟩

/-- A header map has no duplicate keys (true of every map the Go code builds,
since `getHeadersMap` produces a Go map). -/
def noDupKeys (m : StrMap) : Prop :=
  (m.map Prod.fst).Nodup

/-- A successful map lookup pinpoints a member pair. -/
theorem mem_of_mapGet_eq_some {l : StrMap} {k v : String}
    (h : mapGet l k = some v) : (k, v) ∈ l := by
  unfold mapGet at h
  cases hf : l.find? (fun kv => kv.1 == k) with
  | none => simp [hf] at h
  | some kv =>
    have hkey := List.find?_some hf
    have hmem : kv ∈ l := List.mem_of_find?_eq_some hf
    simp only [hf, Option.map_some'] at h
    have h1 : kv.1 = k := by simpa using hkey
    have hkv : kv = (k, v) := by
      cases kv
      simp_all
    rwa [hkv] at hmem

/-- In a map without duplicate keys, a member pair is found by lookup. -/
theorem mapGet_eq_some_of_mem :
    ∀ {l : StrMap} {k v : String}, noDupKeys l → (k, v) ∈ l → mapGet l k = some v
  | [], _, _, _, hmem => by simp at hmem
  | (k', v') :: rest, k, v, hnd, hmem => by
    have hnd' : (k' :: rest.map Prod.fst).Nodup := hnd
    have hnd0 := List.nodup_cons.mp hnd'
    rcases List.mem_cons.mp hmem with heq | hmem'
    · injection heq with e1 e2
      subst e1; subst e2
      simp [mapGet, List.find?]
    · have hk : k ∈ rest.map Prod.fst := List.mem_map.mpr ⟨(k, v), hmem', rfl⟩
      have hne : (k' == k) = false := by
        simp only [beq_eq_false_iff_ne]
        intro hEq
        subst hEq
        exact hnd0.1 hk
      have hskip : mapGet ((k', v') :: rest) k = mapGet rest k := by
        simp only [mapGet]
        rw [List.find?_cons_of_neg _ (by simp [hne])]
      rw [hskip]
      exact mapGet_eq_some_of_mem hnd0.2 hmem'

/-- The `sameHeaders` check of the code decides exactly key/value set
equality, for maps without duplicate keys (all maps the code builds). -/
theorem sameHeaders_iff_set_eq {l1 l2 : StrMap}
    (h1 : noDupKeys l1) (h2 : noDupKeys l2) :
    sameHeaders (some l1) (some l2) = true ↔ (∀ kv, kv ∈ l1 ↔ kv ∈ l2) := by
  have hnd1 : l1.Nodup := List.Nodup.of_map _ h1
  have hnd2 : l2.Nodup := List.Nodup.of_map _ h2
  constructor
  · intro h
    by_cases hl : l1.length = l2.length
    · have hall : l1.all (fun kv =>
          match mapGet l2 kv.1 with
          | none => false
          | some v => v == kv.2) = true := by
        simpa [sameHeaders, hl] using h
      have hsub : l1 ⊆ l2 := by
        intro kv hkv
        have := List.all_eq_true.mp hall kv hkv
        cases hg : mapGet l2 kv.1 with
        | none => rw [hg] at this; simp at this
        | some v =>
          rw [hg] at this
          have hv : v = kv.2 := by simpa using this
          have : (kv.1, kv.2) ∈ l2 := mem_of_mapGet_eq_some (hv ▸ hg)
          simpa using this
      have hperm : List.Perm l1 l2 :=
        (List.subperm_of_subset hnd1 hsub).perm_of_length_le (Nat.le_of_eq hl.symm)
      exact fun kv => hperm.mem_iff
    · exfalso
      simp [sameHeaders, hl] at h
  · intro h
    have hperm : List.Perm l1 l2 := (List.perm_ext_iff_of_nodup hnd1 hnd2).mpr h
    have hl : l1.length = l2.length := hperm.length_eq
    have hall : ∀ kv ∈ l1, (match mapGet l2 kv.1 with
        | none => false
        | some v => v == kv.2) = true := by
      intro kv hkv
      have hg : mapGet l2 kv.1 = some kv.2 := by
        have : (kv.1, kv.2) ∈ l2 := by
          have := (h kv).mp hkv
          simpa using this
        exact mapGet_eq_some_of_mem h2 this
      simp [hg]
    simp [sameHeaders, hl, List.all_eq_true.mpr hall]

/-- If no fixture of a front segment matches, the scan continues behind it. -/
theorem searchMockCall_append :
    ∀ (pre rest : List mockResponse) (method callURL : String)
      (headers : Option StrMap) (body : String),
      (∀ m' ∈ pre, mockMatches m' method callURL headers body = false) →
      searchMockCall (pre ++ rest) method callURL headers body =
        searchMockCall rest method callURL headers body
  | [], _, _, _, _, _, _ => rfl
  | m0 :: pre, rest, method, callURL, headers, body, hpre => by
    have h0 : mockMatches m0 method callURL headers body = false :=
      hpre m0 (List.mem_cons_self _ _)
    simp only [List.cons_append, searchMockCall, h0, Bool.false_eq_true, if_false]
    exact searchMockCall_append pre rest method callURL headers body
      (fun m' hm' => hpre m' (List.mem_cons_of_mem _ hm'))

/-- C8: mock lookup scans the registered fixtures front-to-back, so when the
fixtures before `m` all fail to match and `m` matches (full equality of
method, URL, headers and body), the lookup returns `m`'s response; appending
any further fixture via `AddMock` — in particular a duplicate of `m`'s key —
never changes that result, so the later duplicate is shadowed; and the header
comparison used by matching is exactly key/value set equality (unordered) on
maps without duplicate keys. -/
theorem C8_mock_lookup (pre post : List mockResponse) (m : mockResponse)
    (method callURL body : String) (headers : Option StrMap)
    (hm : mockMatches m method callURL headers body = true)
    (hpre : ∀ m' ∈ pre, mockMatches m' method callURL headers body = false) :
    searchMockCall (pre ++ m :: post) method callURL headers body = some m.Response ∧
    (∀ (URL' method' body' : String) (response' : Response) (headers' : List Header),
      searchMockCall (AddMock (pre ++ m :: post) URL' method' body' response' headers')
        method callURL headers body = some m.Response) ∧
    (∀ l1 l2 : StrMap, noDupKeys l1 → noDupKeys l2 →
      (sameHeaders (some l1) (some l2) = true ↔ ∀ kv, kv ∈ l1 ↔ kv ∈ l2)) := by
  refine ⟨?_, ?_, fun l1 l2 hh1 hh2 => sameHeaders_iff_set_eq hh1 hh2⟩
  · rw [searchMockCall_append pre _ _ _ _ _ hpre]
    simp [searchMockCall, hm]
  · intro URL' method' body' response' headers'
    have hre : AddMock (pre ++ m :: post) URL' method' body' response' headers' =
        pre ++ m ::
          (post ++ [⟨URL', method', response', some (getHeadersMap headers'), body'⟩]) := by
      simp [AddMock]
    rw [hre, searchMockCall_append pre _ _ _ _ _ hpre]
    simp [searchMockCall, hm]

/-- C8 witness: a non-matching fixture first, then the matching fixture
"first", then a shadowed duplicate of the same key carrying a different
response — the lookup returns "first". -/
theorem C8_witness :
    searchMockCall
      [⟨"http://y", "GET", ⟨"other", 200, [], false, false⟩, some [("k", "v")], ""⟩,
        ⟨"http://x", "GET", ⟨"first", 200, [], false, false⟩, some [("k", "v")], ""⟩,
        ⟨"http://x", "GET", ⟨"second", 404, [], false, false⟩, some [("k", "v")], ""⟩]
      "GET" "http://x" (some [("k", "v")]) "" =
      some ⟨"first", 200, [], false, false⟩ :=
  (C8_mock_lookup
    [⟨"http://y", "GET", ⟨"other", 200, [], false, false⟩, some [("k", "v")], ""⟩]
    [⟨"http://x", "GET", ⟨"second", 404, [], false, false⟩, some [("k", "v")], ""⟩]
    ⟨"http://x", "GET", ⟨"first", 200, [], false, false⟩, some [("k", "v")], ""⟩
    "GET" "http://x" "" (some [("k", "v")])
    (by decide) (by decide)).1

end RestClient
